import Mathlib

/-!
Verification development for the aws-monitoring orchestration core.

Shallow embedding of the Go sources:
  - internal/health/manager.go          (health aggregation)
  - internal/collectors (base collector, error handlers, circuit breaker,
    collector registry; several files are staged concatenated)
  - internal/scheduler/scheduler.go     (tick dispatch, health accessor),
    with the package scheduler type declarations staged inside
    internal/aws/client_test.go
  - pkg/errors (the package errors source, staged inside the repository
    Makefile)

Conventions of the embedding:
  - Go `time.Duration` / `time.Time` values are nanosecond counts (`Nat`,
    or `Int` where the source mixes signs).
  - Go `float64` arithmetic in the backoff computation is modelled exactly
    (the values involved are integers that float64 represents exactly in
    the operating range).
  - Go maps are modelled as association lists processed in list order;
    map insertion overwrites the value of an existing key and appends a
    missing key.
  - Mutating methods become functions from state to state; wall-clock
    reads (`time.Now()`) become explicit `now` parameters.
-/

set_option maxHeartbeats 1000000

namespace AwsMon

/-! ## Health aggregation (src/internal/health/manager.go, unnamed/part_005) -/

/-- Status of a health check (`health.Status` constants in unnamed/part_005). -/
inductive HStatus where
  | healthy
  | unhealthy
  | degraded
  | unknown
deriving DecidableEq, Repr

/-- `generateSummary` of manager.go: human-readable summary from the counts. -/
def generateSummary (healthy unhealthy degraded unknown total : Nat) : String :=
  if total = 1 then
    if healthy = 1 then "All systems operational"
    else if unhealthy = 1 then "System experiencing issues"
    else if degraded = 1 then "System performance degraded"
    else "System status unknown"
  else if 0 < unhealthy then s!"{unhealthy} of {total} checks failing"
  else if 0 < degraded then s!"{degraded} of {total} checks degraded"
  else if 0 < unknown ∧ 0 < healthy then
    s!"{healthy} of {total} checks healthy, {unknown} unknown"
  else if healthy = total then "All systems operational"
  else
    s!"{total} checks total: {healthy} healthy, {degraded} degraded, {unhealthy} unhealthy, {unknown} unknown"

/-- `Manager.aggregateStatus` of manager.go.  The Go input is the map of
check results; only the statuses influence the outcome, so the map is
modelled as the list of its entries' statuses (one per check). -/
def aggregateStatus (checks : List HStatus) : HStatus × String :=
  if checks.length = 0 then (HStatus.unknown, "No health checks configured")
  else
    let healthyCount := checks.countP (fun s => s = HStatus.healthy)
    let unhealthyCount := checks.countP (fun s => s = HStatus.unhealthy)
    let degradedCount := checks.countP (fun s => s = HStatus.degraded)
    let unknownCount := checks.countP (fun s => s = HStatus.unknown)
    let totalChecks := checks.length
    if 0 < unhealthyCount then
      (HStatus.unhealthy, generateSummary healthyCount unhealthyCount degradedCount unknownCount totalChecks)
    else if 0 < degradedCount then
      (HStatus.degraded, generateSummary healthyCount unhealthyCount degradedCount unknownCount totalChecks)
    else if unknownCount = totalChecks then
      (HStatus.unknown, generateSummary healthyCount unhealthyCount degradedCount unknownCount totalChecks)
    else if healthyCount = totalChecks then
      (HStatus.healthy, generateSummary healthyCount unhealthyCount degradedCount unknownCount totalChecks)
    else if 0 < healthyCount then
      (HStatus.degraded, generateSummary healthyCount unhealthyCount degradedCount unknownCount totalChecks)
    else
      (HStatus.unknown, generateSummary healthyCount unhealthyCount degradedCount unknownCount totalChecks)

lemma countP_pos_of_mem {l : List HStatus} {a : HStatus} (h : a ∈ l) :
    0 < l.countP (fun s => s = a) := by
  rw [List.countP_pos_iff]
  exact ⟨a, h, by simp⟩

lemma countP_eq_zero_of_not_mem {l : List HStatus} {a : HStatus} (h : a ∉ l) :
    l.countP (fun s => s = a) = 0 := by
  rw [List.countP_eq_zero]
  intro b hb
  simp only [decide_eq_true_eq]
  intro hba
  exact h (hba ▸ hb)

/-- C1: the overall status is computed from the check-result map by the
deterministic precedence rule: empty map gives `unknown` with summary
"No health checks configured"; any `unhealthy` gives `unhealthy`; else any
`degraded` gives `degraded`; else all `unknown` gives `unknown`; else all
`healthy` gives `healthy`; else a mix of `unknown` and at least one
`healthy` gives `degraded`; any remaining case falls back to `unknown`.
The four concrete instances of the claim are included. -/
theorem aggregateStatus_precedence :
    (aggregateStatus [] = (HStatus.unknown, "No health checks configured"))
    ∧ (∀ l : List HStatus, l ≠ [] → HStatus.unhealthy ∈ l →
        (aggregateStatus l).1 = HStatus.unhealthy)
    ∧ (∀ l : List HStatus, l ≠ [] → HStatus.unhealthy ∉ l → HStatus.degraded ∈ l →
        (aggregateStatus l).1 = HStatus.degraded)
    ∧ (∀ l : List HStatus, l ≠ [] → (∀ s ∈ l, s = HStatus.unknown) →
        (aggregateStatus l).1 = HStatus.unknown)
    ∧ (∀ l : List HStatus, l ≠ [] → (∀ s ∈ l, s = HStatus.healthy) →
        (aggregateStatus l).1 = HStatus.healthy)
    ∧ (∀ l : List HStatus, HStatus.unhealthy ∉ l → HStatus.degraded ∉ l →
        HStatus.unknown ∈ l → HStatus.healthy ∈ l →
        (aggregateStatus l).1 = HStatus.degraded)
    ∧ (∀ l : List HStatus, l ≠ [] → HStatus.unhealthy ∉ l → HStatus.degraded ∉ l →
        ¬ (∀ s ∈ l, s = HStatus.unknown) → ¬ (∀ s ∈ l, s = HStatus.healthy) →
        ¬ (HStatus.unknown ∈ l ∧ HStatus.healthy ∈ l) →
        (aggregateStatus l).1 = HStatus.unknown)
    ∧ (aggregateStatus [HStatus.healthy, HStatus.degraded]).1 = HStatus.degraded
    ∧ (aggregateStatus [HStatus.unhealthy, HStatus.healthy]).1 = HStatus.unhealthy
    ∧ (aggregateStatus [HStatus.unknown, HStatus.healthy]).1 = HStatus.degraded
    ∧ (aggregateStatus [HStatus.unknown, HStatus.unknown]).1 = HStatus.unknown := by
  refine ⟨by decide, ?_, ?_, ?_, ?_, ?_, ?_, by decide, by decide, by decide, by decide⟩
  · intro l hne hmem
    have hlen : l.length ≠ 0 := by simpa [List.length_eq_zero] using hne
    have hu := countP_pos_of_mem hmem
    simp only [aggregateStatus, hlen, if_false, hu, if_true]
  · intro l hne hnu hmem
    have hlen : l.length ≠ 0 := by simpa [List.length_eq_zero] using hne
    have hu := countP_eq_zero_of_not_mem hnu
    have hd := countP_pos_of_mem hmem
    simp only [aggregateStatus, hlen, if_false, hu, lt_irrefl, hd, if_true]
  · intro l hne hall
    have hlen : l.length ≠ 0 := by simpa [List.length_eq_zero] using hne
    have hu : l.countP (fun s => s = HStatus.unhealthy) = 0 := by
      rw [List.countP_eq_zero]
      intro b hb
      simp [hall b hb]
    have hd : l.countP (fun s => s = HStatus.degraded) = 0 := by
      rw [List.countP_eq_zero]
      intro b hb
      simp [hall b hb]
    have hk : l.countP (fun s => s = HStatus.unknown) = l.length := by
      rw [List.countP_eq_length]
      intro b hb
      simp [hall b hb]
    simp only [aggregateStatus, hlen, if_false, hu, hd, lt_irrefl, hk, if_true]
  · intro l hne hall
    have hlen : l.length ≠ 0 := by simpa [List.length_eq_zero] using hne
    have hu : l.countP (fun s => s = HStatus.unhealthy) = 0 := by
      rw [List.countP_eq_zero]
      intro b hb
      simp [hall b hb]
    have hd : l.countP (fun s => s = HStatus.degraded) = 0 := by
      rw [List.countP_eq_zero]
      intro b hb
      simp [hall b hb]
    have hh : l.countP (fun s => s = HStatus.healthy) = l.length := by
      rw [List.countP_eq_length]
      intro b hb
      simp [hall b hb]
    have hk : l.countP (fun s => s = HStatus.unknown) ≠ l.length := by
      intro hcontra
      rw [List.countP_eq_length] at hcontra
      obtain ⟨a, ha⟩ := List.exists_mem_of_ne_nil l hne
      have h1 := hall a ha
      have h2 := hcontra a ha
      simp only [decide_eq_true_eq] at h2
      rw [h1] at h2
      cases h2
    simp only [aggregateStatus, hlen, if_false, hu, hd, lt_irrefl, hk, hh, if_true]
  · intro l hnu hnd hku hkh
    have hne : l ≠ [] := by
      intro h
      rw [h] at hkh
      cases hkh
    have hlen : l.length ≠ 0 := by simpa [List.length_eq_zero] using hne
    have hu := countP_eq_zero_of_not_mem hnu
    have hd := countP_eq_zero_of_not_mem hnd
    have hh := countP_pos_of_mem hkh
    have hk : l.countP (fun s => s = HStatus.unknown) ≠ l.length := by
      intro hcontra
      rw [List.countP_eq_length] at hcontra
      have h2 := hcontra HStatus.healthy hkh
      simp only [decide_eq_true_eq] at h2
      cases h2
    have hhlen : l.countP (fun s => s = HStatus.healthy) ≠ l.length := by
      intro hcontra
      rw [List.countP_eq_length] at hcontra
      have h2 := hcontra HStatus.unknown hku
      simp only [decide_eq_true_eq] at h2
      cases h2
    simp only [aggregateStatus, hlen, if_false, hu, hd, lt_irrefl, hk, hhlen, hh, if_true]
  · intro l hne hnu hnd hnk hnh hmix
    exfalso
    have hcases : ∀ s ∈ l, s = HStatus.unknown ∨ s = HStatus.healthy := by
      intro s hs
      cases s with
      | healthy => exact Or.inr rfl
      | unhealthy => exact absurd hs hnu
      | degraded => exact absurd hs hnd
      | unknown => exact Or.inl rfl
    obtain ⟨a, hal, hane⟩ : ∃ x ∈ l, ¬ x = HStatus.unknown := by simpa using hnk
    obtain ⟨b, hbl, hbne⟩ : ∃ x ∈ l, ¬ x = HStatus.healthy := by simpa using hnh
    rcases hcases a hal with h1 | h1
    · exact hane h1
    · rcases hcases b hbl with h2 | h2
      · exact hmix ⟨h2 ▸ hbl, h1 ▸ hal⟩
      · exact hbne h2

/-- Witness for C1 at concrete inputs: each precedence case applied to a
concrete non-empty check list. -/
theorem aggregateStatus_precedence_witness :
    (aggregateStatus [HStatus.unhealthy, HStatus.healthy]).1 = HStatus.unhealthy
    ∧ (aggregateStatus [HStatus.healthy, HStatus.degraded]).1 = HStatus.degraded
    ∧ (aggregateStatus [HStatus.unknown, HStatus.unknown]).1 = HStatus.unknown
    ∧ (aggregateStatus [HStatus.healthy, HStatus.healthy]).1 = HStatus.healthy
    ∧ (aggregateStatus [HStatus.unknown, HStatus.healthy]).1 = HStatus.degraded := by
  obtain ⟨h0, h1, h2, h3, h4, h5, h6, hrest⟩ := aggregateStatus_precedence
  exact ⟨h1 _ (by decide) (by decide), h2 _ (by decide) (by decide) (by decide),
    h3 _ (by decide) (by decide), h4 _ (by decide) (by decide),
    h5 _ (by decide) (by decide) (by decide) (by decide)⟩

/-! ## Error model (package errors source, staged in src/Makefile) -/

/-- `errors.ErrorType` constants (src/Makefile, package errors block). -/
inductive ErrType where
  | aws
  | config
  | network
  | validation
  | timeout
  | permission
  | rateLimit
  | internal
deriving DecidableEq, Repr

/-- `errors.Error` (src/Makefile, package errors block).  Fields are the
ones the embedded decision paths read or write: the category, short code,
message, the explicit `Retryable` flag, the optional `RetryAfter` duration
(nanoseconds), and the `Operation`/`Region` context.  `Severity`,
`Timestamp`, `Service`, `Cause`, `StackTrace` and `Metadata` drive logging
only and are elided. -/
structure GoError where
  etype : ErrType
  code : String
  message : String
  retryable : Bool
  retryAfter : Option Int
  operation : String
  region : String
deriving DecidableEq, Repr

/-- `errors.New` (src/Makefile): a fresh classified error with the given
category, code and message; `Retryable` defaults to false (severity medium,
timestamp and stack trace elided). -/
def newError (t : ErrType) (code message : String) : GoError :=
  { etype := t, code := code, message := message, retryable := false,
    retryAfter := none, operation := "", region := "" }

/-- The non-`*Error` branch of `errors.Wrap` (src/Makefile): a fresh
classified error carrying the given category, code and message, with the
wrapped plain error as its (elided) cause.  `CollectWithRetry` only wraps
plain errors — `ctx.Err()` and collect failures that are not already
`*errors.Error` — so this is the branch it exercises. -/
def wrapErr (t : ErrType) (code message : String) : GoError :=
  newError t code message

/-- `errors.WithOperation` (src/Makefile): attach operation context. -/
def withOperation (e : GoError) (op : String) : GoError := { e with operation := op }

/-- `errors.WithRegion` (src/Makefile): attach region context. -/
def withRegion (e : GoError) (r : String) : GoError := { e with region := r }

/-- `errors.WithRetryable` (src/Makefile): set the explicit flag. -/
def withRetryable (e : GoError) (r : Bool) : GoError := { e with retryable := r }

/-- `errors.GetRetryAfter` (src/Makefile): the error's `RetryAfter` when
set.  The argument `GetRetryDelay` passes is already a `*errors.Error`, so
the type assertion in the source always succeeds. -/
def getRetryAfter (e : GoError) : Option Int := e.retryAfter

/-- `errors.NewNetworkError` (src/Makefile): a network-category error with
`Retryable = true`. -/
def newNetworkError (code message : String) : GoError :=
  withRetryable (newError ErrType.network code message) true

/-- `errors.NewValidationError` (src/Makefile): a validation-category
error (not retryable). -/
def newValidationError (code message : String) : GoError :=
  newError ErrType.validation code message

/-- `errors.NewPermissionError` (src/Makefile): a permission-category
error with code `ACCESS_DENIED`, the resource in the message, and the
operation attached (`WithSeverity` high is elided). -/
def newPermissionError (operation resource : String) : GoError :=
  withOperation
    (newError ErrType.permission "ACCESS_DENIED"
      ("insufficient permissions for resource: " ++ resource))
    operation

/-- The connectivity error of the concrete scenarios:
`errors.NewNetworkError("CONNECTION_ERROR", "connection failed")` as in
the CollectWithRetry test. -/
def connectionError : GoError :=
  newNetworkError "CONNECTION_ERROR" "connection failed"

/-- The permission error of the concrete scenarios:
`errors.NewPermissionError("describe", "ec2:instances")` as in the
CollectWithRetry test. -/
def permissionError : GoError :=
  newPermissionError "describe" "ec2:instances"

/-! ## Default error handler
(`DefaultErrorHandler` in the collectors package, src/internal/collectors) -/

/-- Substring test on character lists (semantics of Go `strings.Contains`). -/
def charsContain (sub : List Char) : List Char → Bool
  | [] => sub.isEmpty
  | c :: rest => sub.isPrefixOf (c :: rest) || charsContain sub rest

/-- Go `strings.Contains s sub`. -/
def strContains (s sub : String) : Bool := charsContain sub.data s.data

/-- Go `strings.ToLower` (ASCII suffices for the patterns involved). -/
def strToLower (s : String) : String := s.map Char.toLower

/-- `DefaultErrorHandler`: retry bookkeeping fields (the logger is elided).
`NewDefaultErrorHandler` sets `maxRetries := 3` and `baseDelay := 1s`. -/
structure DefaultErrorHandler where
  maxRetries : Nat
  baseDelay : Int
deriving DecidableEq, Repr

/-- `NewDefaultErrorHandler` (base delay in nanoseconds). -/
def newDefaultErrorHandler : DefaultErrorHandler :=
  { maxRetries := 3, baseDelay := 1000000000 }

/-- The `retryableAWSCodes` list of `shouldRetryAWSError`. -/
def retryableAWSCodes : List String :=
  ["InternalError", "InternalFailure", "ServiceUnavailable", "Throttling",
   "ThrottlingException", "RequestLimitExceeded", "RequestTimeout",
   "RequestTimeoutException", "PriorRequestNotComplete", "ConnectionError",
   "NetworkError", "DNSError", "TimeoutError", "RequestExpired",
   "ServiceTemporarilyUnavailable"]

/-- The `retryablePatterns` list of `shouldRetryAWSError`. -/
def retryablePatterns : List String :=
  ["connection reset", "connection timeout", "connection refused",
   "no such host", "network is unreachable", "temporary failure",
   "service temporarily unavailable", "internal server error",
   "bad gateway", "gateway timeout"]

/-- `DefaultErrorHandler.shouldRetryAWSError`: an AWS error is retryable
when its code or message contains a known transient code, or its lowercased
message contains a known transient pattern. -/
def shouldRetryAWSError (err : GoError) : Bool :=
  retryableAWSCodes.any (fun code => strContains err.code code || strContains err.message code)
  || (let lowerMessage := strToLower err.message
      retryablePatterns.any (fun pat => strContains lowerMessage pat))

/-- The `retryableInternalCodes` list of `shouldRetryInternalError`. -/
def retryableInternalCodes : List String :=
  ["CONTEXT_CANCELLED", "TIMEOUT", "NETWORK_ERROR", "TEMPORARY_FAILURE"]

/-- `DefaultErrorHandler.shouldRetryInternalError`. -/
def shouldRetryInternalError (err : GoError) : Bool :=
  retryableInternalCodes.any (fun code => err.code = code)

/-- `DefaultErrorHandler.ShouldRetry` (the `err` parameter is a Go pointer,
hence `Option`). -/
def defaultShouldRetry (eh : DefaultErrorHandler) (err : Option GoError) (attempt : Nat) : Bool :=
  match err with
  | none => false
  | some err =>
    if attempt ≥ eh.maxRetries then false
    else if err.retryable then true
    else
      match err.etype with
      | ErrType.aws => shouldRetryAWSError err
      | ErrType.network => true
      | ErrType.timeout => true
      | ErrType.rateLimit => true
      | ErrType.permission => false
      | ErrType.config => false
      | ErrType.validation => false
      | ErrType.internal => shouldRetryInternalError err

/-- The 30s cap of `GetRetryDelay`, in nanoseconds. -/
def maxRetryDelay : Int := 30000000000

/-- The 100ms floor of `GetRetryDelay`, in nanoseconds. -/
def minRetryDelay : Int := 100000000

/-- Go's float64 → int64 conversion as it behaves on amd64 (the build
target of the repository's Dockerfile and Makefile): an in-range value
truncates — exact here, since every float value this code converts
(`baseDelay * 2^attempt` with the handler's 1s base, and its quarter) is an
integer float64 represents exactly — and an out-of-range value yields
`math.MinInt64`. -/
def f64ToInt64 (x : Int) : Int :=
  if x < -9223372036854775808 ∨ 9223372036854775807 < x then -9223372036854775808
  else x

/-- `DefaultErrorHandler.GetRetryDelay`.  `nowNano` stands for
`time.Now().UnixNano()`.  `float64(baseDelay) * math.Pow(2, attempt)` and
`float64(delay) * 0.25` are exact in float64 for the values arising, so
they appear as exact integer arithmetic under the `f64ToInt64` conversions
the source performs; Go's `%` agrees with `Int.emod` on the nonnegative
dividend `2*now` (for either sign of the divisor). -/
def getRetryDelay (eh : DefaultErrorHandler) (err : Option GoError) (attempt : Nat)
    (nowNano : Nat) : Int :=
  match err with
  | none => eh.baseDelay
  | some err =>
    match getRetryAfter err with
    | some ra => ra
    | none =>
      let delay : Int := f64ToInt64 (eh.baseDelay * 2 ^ attempt)
      let jitter : Int := f64ToInt64 (delay / 4)
      let jitterAdjustment : Int := (2 * (nowNano : Int)) % jitter - jitter
      let delay := delay + jitterAdjustment
      let delay := if delay > maxRetryDelay then maxRetryDelay else delay
      let delay := if delay < minRetryDelay then minRetryDelay else delay
      delay

/-! ## Circuit breaker (`CircuitBreakerErrorHandler`, src/internal/collectors) -/

/-- `CircuitBreakerState` (Go string constants closed / open / half_open). -/
inductive CBState where
  | closed
  | opened
  | halfOpen
deriving DecidableEq, Repr

/-- `CircuitBreakerErrorHandler`: the embedded `DefaultErrorHandler` plus
the breaker state.  `lastFailure` is a UnixNano timestamp, `timeout` a
duration in nanoseconds. -/
structure CircuitBreakerErrorHandler where
  eh : DefaultErrorHandler
  state : CBState
  failureCount : Nat
  lastFailure : Nat
  successCount : Nat
  failureThreshold : Nat
  timeout : Nat
  recoveryThreshold : Nat
deriving DecidableEq, Repr

/-- `NewCircuitBreakerErrorHandler`: closed, threshold 5, cooldown 60s,
recovery threshold 3. -/
def newCircuitBreakerErrorHandler : CircuitBreakerErrorHandler :=
  { eh := { maxRetries := 3, baseDelay := 1000000000 },
    state := CBState.closed, failureCount := 0, lastFailure := 0,
    successCount := 0, failureThreshold := 5, timeout := 60000000000,
    recoveryThreshold := 3 }

/-- `openCircuit`. -/
def openCircuit (cb : CircuitBreakerErrorHandler) : CircuitBreakerErrorHandler :=
  { cb with state := CBState.opened }

/-- `closeCircuit`. -/
def closeCircuit (cb : CircuitBreakerErrorHandler) : CircuitBreakerErrorHandler :=
  { cb with state := CBState.closed, failureCount := 0, successCount := 0 }

/-- `transitionToHalfOpen`. -/
def transitionToHalfOpen (cb : CircuitBreakerErrorHandler) : CircuitBreakerErrorHandler :=
  { cb with state := CBState.halfOpen, successCount := 0 }

/-- `CircuitBreakerErrorHandler.RecordSuccess`. -/
def recordSuccess (cb : CircuitBreakerErrorHandler) : CircuitBreakerErrorHandler :=
  match cb.state with
  | CBState.halfOpen =>
    let cb := { cb with successCount := cb.successCount + 1 }
    if cb.successCount ≥ cb.recoveryThreshold then closeCircuit cb else cb
  | CBState.opened => closeCircuit cb
  | CBState.closed => { cb with failureCount := 0 }

/-- `recordFailure` (`now` is the `time.Now()` of the call). -/
def recordFailure (cb : CircuitBreakerErrorHandler) (now : Nat) : CircuitBreakerErrorHandler :=
  let cb := { cb with lastFailure := now }
  match cb.state with
  | CBState.closed =>
    let cb := { cb with failureCount := cb.failureCount + 1 }
    if cb.failureCount ≥ cb.failureThreshold then openCircuit cb else cb
  | CBState.halfOpen => openCircuit cb
  | CBState.opened => cb

/-- `isCircuitOpen`: lazily transitions open → half_open once the cooldown
has elapsed; returns the decision together with the (possibly mutated)
breaker. -/
def isCircuitOpen (cb : CircuitBreakerErrorHandler) (now : Nat) :
    Bool × CircuitBreakerErrorHandler :=
  if cb.state = CBState.opened then
    if now - cb.lastFailure > cb.timeout then (false, transitionToHalfOpen cb)
    else (true, cb)
  else (false, cb)

/-- `CircuitBreakerErrorHandler.ShouldRetry`: deny while open, else delegate
to the default policy. -/
def cbShouldRetry (cb : CircuitBreakerErrorHandler) (now : Nat) (err : Option GoError)
    (attempt : Nat) : Bool × CircuitBreakerErrorHandler :=
  let r := isCircuitOpen cb now
  if r.1 then (false, r.2)
  else (defaultShouldRetry cb.eh err attempt, r.2)

/-- `n` consecutive recorded failures (each stamped at `now`). -/
def recordFailures (cb : CircuitBreakerErrorHandler) (now : Nat) : Nat → CircuitBreakerErrorHandler
  | 0 => cb
  | n + 1 => recordFailure (recordFailures cb now n) now

/-- `n` consecutive recorded successes. -/
def recordSuccesses (cb : CircuitBreakerErrorHandler) : Nat → CircuitBreakerErrorHandler
  | 0 => cb
  | n + 1 => recordSuccess (recordSuccesses cb n)

/-- C2: the circuit breaker state machine.  Starting closed, it opens after
5 consecutive recorded failures (fewer leave it closed, and a success while
closed resets the consecutive-failure count); while open and within the
60-second cooldown since the last recorded failure, every retry request is
denied regardless of the error or attempt (without consulting the default
policy); the first consultation after the cooldown transitions the breaker
to half_open and delegates the decision to the default policy; three
consecutive recorded successes while half-open close it (fewer leave it
half-open); and any single recorded failure while half-open reopens it. -/
theorem circuitBreaker_state_machine :
    (∀ now : Nat, (∀ n, n < 5 → (recordFailures newCircuitBreakerErrorHandler now n).state = CBState.closed)
      ∧ (recordFailures newCircuitBreakerErrorHandler now 5).state = CBState.opened)
    ∧ (∀ cb : CircuitBreakerErrorHandler, cb.state = CBState.closed →
        (recordSuccess cb).state = CBState.closed ∧ (recordSuccess cb).failureCount = 0)
    ∧ (∀ (cb : CircuitBreakerErrorHandler) (now : Nat) (err : Option GoError) (attempt : Nat),
        cb.state = CBState.opened → now - cb.lastFailure ≤ cb.timeout →
        cbShouldRetry cb now err attempt = (false, cb))
    ∧ (∀ (cb : CircuitBreakerErrorHandler) (now : Nat) (err : Option GoError) (attempt : Nat),
        cb.state = CBState.opened → now - cb.lastFailure > cb.timeout →
        (cbShouldRetry cb now err attempt).2.state = CBState.halfOpen
        ∧ (cbShouldRetry cb now err attempt).1 = defaultShouldRetry cb.eh err attempt)
    ∧ (∀ cb : CircuitBreakerErrorHandler, cb.state = CBState.halfOpen →
        cb.successCount = 0 → cb.recoveryThreshold = 3 →
        (∀ n, n < 3 → (recordSuccesses cb n).state = CBState.halfOpen)
        ∧ (recordSuccesses cb 3).state = CBState.closed)
    ∧ (∀ (cb : CircuitBreakerErrorHandler) (now : Nat), cb.state = CBState.halfOpen →
        (recordFailure cb now).state = CBState.opened) := by
  refine ⟨?_, ?_, ?_, ?_, ?_, ?_⟩
  · intro now
    constructor
    · intro n hn
      interval_cases n <;> rfl
    · rfl
  · intro cb hstate
    obtain ⟨eh, st, fc, lf, sc, ft, tmo, rt⟩ := cb
    simp only at hstate
    subst hstate
    exact ⟨rfl, rfl⟩
  · intro cb now err attempt hstate hle
    have hnot : ¬ (now - cb.lastFailure > cb.timeout) := not_lt.mpr hle
    simp [cbShouldRetry, isCircuitOpen, hstate, hnot]
  · intro cb now err attempt hstate hgt
    simp [cbShouldRetry, isCircuitOpen, hstate, hgt, transitionToHalfOpen]
  · intro cb hstate hsc hrt
    obtain ⟨eh, st, fc, lf, sc, ft, tmo, rt⟩ := cb
    simp only at hstate hsc hrt
    subst hstate; subst hsc; subst hrt
    constructor
    · intro n hn
      interval_cases n <;> rfl
    · rfl
  · intro cb now hstate
    obtain ⟨eh, st, fc, lf, sc, ft, tmo, rt⟩ := cb
    simp only at hstate
    subst hstate
    rfl

/-- Witness for C2 at concrete inputs: five failures starting from the
fresh breaker open it and four leave it closed; a success in the closed
fresh breaker keeps it closed with a zero failure count; an open breaker
consulted 1s after its last failure denies a retryable network error;
consulted 61s after, it is half-open and delegates; three successes close a
fresh half-open breaker while two do not; one failure reopens it. -/
theorem circuitBreaker_state_machine_witness :
    (recordFailures newCircuitBreakerErrorHandler 1000 4).state = CBState.closed
    ∧ (recordFailures newCircuitBreakerErrorHandler 1000 5).state = CBState.opened
    ∧ (recordSuccess newCircuitBreakerErrorHandler).state = CBState.closed
    ∧ (recordSuccess newCircuitBreakerErrorHandler).failureCount = 0
    ∧ (cbShouldRetry (recordFailures newCircuitBreakerErrorHandler 0 5) 1000000000
        (some connectionError) 0
        = (false, recordFailures newCircuitBreakerErrorHandler 0 5))
    ∧ ((cbShouldRetry (recordFailures newCircuitBreakerErrorHandler 0 5) 61000000000
        (some connectionError) 0).2.state
        = CBState.halfOpen)
    ∧ ((cbShouldRetry (recordFailures newCircuitBreakerErrorHandler 0 5) 61000000000
        (some connectionError) 0).1
        = defaultShouldRetry newDefaultErrorHandler
            (some connectionError) 0)
    ∧ (recordSuccesses (transitionToHalfOpen (recordFailures newCircuitBreakerErrorHandler 0 5)) 2).state
        = CBState.halfOpen
    ∧ (recordSuccesses (transitionToHalfOpen (recordFailures newCircuitBreakerErrorHandler 0 5)) 3).state
        = CBState.closed
    ∧ (recordFailure (transitionToHalfOpen (recordFailures newCircuitBreakerErrorHandler 0 5)) 70000000000).state
        = CBState.opened := by
  have h := circuitBreaker_state_machine
  obtain ⟨h1, h2, h3, h4, h5, h6⟩ := h
  refine ⟨(h1 1000).1 4 (by decide), (h1 1000).2, (h2 newCircuitBreakerErrorHandler rfl).1,
    (h2 newCircuitBreakerErrorHandler rfl).2, ?_, ?_, ?_, ?_, ?_, ?_⟩
  · exact h3 (recordFailures newCircuitBreakerErrorHandler 0 5) 1000000000
      (some connectionError) 0
      (by decide) (by decide)
  · exact (h4 (recordFailures newCircuitBreakerErrorHandler 0 5) 61000000000
      (some connectionError) 0
      (by decide) (by decide)).1
  · exact (h4 (recordFailures newCircuitBreakerErrorHandler 0 5) 61000000000
      (some connectionError) 0
      (by decide) (by decide)).2
  · exact (h5 (transitionToHalfOpen (recordFailures newCircuitBreakerErrorHandler 0 5))
      rfl rfl rfl).1 2 (by decide)
  · exact (h5 (transitionToHalfOpen (recordFailures newCircuitBreakerErrorHandler 0 5))
      rfl rfl rfl).2
  · exact h6 (transitionToHalfOpen (recordFailures newCircuitBreakerErrorHandler 0 5))
      70000000000 rfl

/-! ## Collection with retry (`BaseCollector.CollectWithRetry`,
src/internal/collectors/base.go lines 215-301) -/

/-- `MetricData` (float64 values modelled as integers; timestamps as
nanosecond counts). -/
structure MetricData where
  mname : String
  value : Int
  unit : String
  timestamp : Nat
  labels : List (String × String)
  description : String
deriving DecidableEq, Repr

/-- What `collectFunc` returns on one attempt: success with metrics, a
classified `*errors.Error`, or a plain Go error (which `CollectWithRetry`
wraps as internal `COLLECTION_ERROR` with message "collection failed",
keeping the plain error only as the elided cause). -/
inductive AttemptOutcome where
  | success (metrics : List MetricData)
  | failure (e : GoError)
  | rawFailure (msg : String)
deriving DecidableEq, Repr

/-- The environment of one `CollectWithRetry` call: the configured retry
budget, the context-cancellation observations (`ctxErr i` is whether
`ctx.Err()` is non-nil at the top of attempt `i`; `waitCancelled i` whether
`ctx.Done()` fires during the backoff wait after attempt `i`), and the
outcome `collectFunc` produces on attempt `i`. -/
structure CollectEnv where
  retries : Nat
  ctxErr : Nat → Bool
  waitCancelled : Nat → Bool
  outcome : Nat → AttemptOutcome

/-- The observable state of one `CollectWithRetry` call: the result's
metric list and terminal error, plus the collector's bookkeeping
(`recordSuccess` / `recordError` counters) and the number of times
`collectFunc` was invoked. -/
structure CollectState where
  metrics : List MetricData
  error : Option GoError
  attemptsMade : Nat
  successesRecorded : Nat
  errorsRecorded : Nat
deriving DecidableEq, Repr

/-- How the loop body left the loop: `finished` covers both a `break` and
the loop condition failing (the post-loop code runs), `earlyReturn` is the
`return result` inside the cancelled backoff wait (the post-loop code is
skipped). -/
structure LoopExit where
  st : CollectState
  lastErr : Option GoError
  earlyReturn : Bool

/-- The attempt loop of `CollectWithRetry` (`for attempt := 0; attempt <
retries+1; attempt++`).  `fuel` is the number of remaining iterations
(`retries + 1 - attempt`), so the recursion is structural. -/
def collectLoop (env : CollectEnv) (eh : DefaultErrorHandler) (region : String) :
    Nat → Nat → Option GoError → CollectState → LoopExit
  | _, 0, lastErr, st => ⟨st, lastErr, false⟩
  | attempt, fuel + 1, lastErr, st =>
    if env.ctxErr attempt then
      ⟨{ st with error := some (wrapErr ErrType.internal "CONTEXT_CANCELLED" "collection cancelled") },
       lastErr, false⟩
    else
      let st := { st with attemptsMade := st.attemptsMade + 1 }
      match env.outcome attempt with
      | AttemptOutcome.success metrics =>
        ⟨{ st with metrics := metrics, successesRecorded := st.successesRecorded + 1 },
         lastErr, false⟩
      | AttemptOutcome.failure e =>
        let lastErr := some (withRegion (withOperation e "collect") region)
        if ¬ defaultShouldRetry eh lastErr attempt then ⟨st, lastErr, false⟩
        else if attempt < env.retries then
          if env.waitCancelled attempt then
            ⟨{ st with
                error := some (wrapErr ErrType.internal "CONTEXT_CANCELLED" "collection cancelled during retry"),
                errorsRecorded := st.errorsRecorded + 1 },
             lastErr, true⟩
          else collectLoop env eh region (attempt + 1) fuel lastErr st
        else collectLoop env eh region (attempt + 1) fuel lastErr st
      | AttemptOutcome.rawFailure _msg =>
        let lastErr := some (withRegion (withOperation
          (wrapErr ErrType.internal "COLLECTION_ERROR" "collection failed") "collect") region)
        if ¬ defaultShouldRetry eh lastErr attempt then ⟨st, lastErr, false⟩
        else if attempt < env.retries then
          if env.waitCancelled attempt then
            ⟨{ st with
                error := some (wrapErr ErrType.internal "CONTEXT_CANCELLED" "collection cancelled during retry"),
                errorsRecorded := st.errorsRecorded + 1 },
             lastErr, true⟩
          else collectLoop env eh region (attempt + 1) fuel lastErr st
        else collectLoop env eh region (attempt + 1) fuel lastErr st

/-- The code after the loop: when the loop was not exited by the early
`return` and the last error is set with no metrics collected, the terminal
error becomes that last error and `recordError` runs. -/
def collectFinalize (ex : LoopExit) : CollectState :=
  if ex.earlyReturn then ex.st
  else
    match ex.lastErr with
    | some e =>
      if ex.st.metrics.isEmpty then
        { ex.st with error := some e, errorsRecorded := ex.st.errorsRecorded + 1 }
      else ex.st
    | none => ex.st

/-- `BaseCollector.CollectWithRetry`, as the function from the attempt
environment to the observable final state. -/
def collectWithRetry (env : CollectEnv) (eh : DefaultErrorHandler) (region : String) :
    CollectState :=
  collectFinalize (collectLoop env eh region 0 (env.retries + 1) none
    { metrics := [], error := none, attemptsMade := 0, successesRecorded := 0,
      errorsRecorded := 0 })

lemma collectLoop_error_imp_empty (env : CollectEnv) (eh : DefaultErrorHandler)
    (region : String) :
    ∀ (fuel attempt : Nat) (lastErr : Option GoError) (st : CollectState),
      st.metrics = [] → st.error = none →
      ((collectLoop env eh region attempt fuel lastErr st).st.error ≠ none →
        (collectLoop env eh region attempt fuel lastErr st).st.metrics = []) := by
  intro fuel
  induction fuel with
  | zero =>
    intro attempt lastErr st hm he _
    simpa [collectLoop] using hm
  | succ fuel ih =>
    intro attempt lastErr st hm he
    simp only [collectLoop]
    by_cases hctx : env.ctxErr attempt
    · simp [hctx, hm]
    · simp only [hctx, Bool.false_eq_true, if_false]
      cases houtcome : env.outcome attempt with
      | success ms =>
        simp [houtcome, he]
      | failure e =>
        simp only [houtcome]
        by_cases hr : defaultShouldRetry eh
            (some (withRegion (withOperation e "collect") region)) attempt
        · simp only [hr, not_true, if_false, if_neg]
          by_cases hlt : attempt < env.retries
          · simp only [hlt, if_true, if_pos]
            by_cases hw : env.waitCancelled attempt
            · simp [hw, hm]
            · simp only [hw, Bool.false_eq_true, if_false]
              exact ih (attempt + 1) _ _ (by simp [hm]) (by simp [he])
          · simp only [hlt, if_false, if_neg]
            exact ih (attempt + 1) _ _ (by simp [hm]) (by simp [he])
        · simp [hr, he]
      | rawFailure msg =>
        simp only [houtcome]
        by_cases hr : defaultShouldRetry eh
            (some (withRegion (withOperation
              (wrapErr ErrType.internal "COLLECTION_ERROR" "collection failed") "collect") region)) attempt
        · simp only [hr, not_true, if_false, if_neg]
          by_cases hlt : attempt < env.retries
          · simp only [hlt, if_true, if_pos]
            by_cases hw : env.waitCancelled attempt
            · simp [hw, hm]
            · simp only [hw, Bool.false_eq_true, if_false]
              exact ih (attempt + 1) _ _ (by simp [hm]) (by simp [he])
          · simp only [hlt, if_false, if_neg]
            exact ih (attempt + 1) _ _ (by simp [hm]) (by simp [he])
        · simp [hr, he]

/-- C5: no partial-success metric leakage.  For every attempt environment
(every sequence of outcomes, retry budget, and cancellation point), if the
final `CollectionResult` carries a terminal error, its metric sequence is
empty. -/
theorem collectWithRetry_error_empty_metrics (env : CollectEnv)
    (eh : DefaultErrorHandler) (region : String)
    (herr : (collectWithRetry env eh region).error ≠ none) :
    (collectWithRetry env eh region).metrics = [] := by
  unfold collectWithRetry at herr ⊢
  set ex := collectLoop env eh region 0 (env.retries + 1) none
    { metrics := [], error := none, attemptsMade := 0, successesRecorded := 0,
      errorsRecorded := 0 } with hex
  have hbase := collectLoop_error_imp_empty env eh region (env.retries + 1) 0 none
    { metrics := [], error := none, attemptsMade := 0, successesRecorded := 0,
      errorsRecorded := 0 } rfl rfl
  rw [← hex] at hbase
  unfold collectFinalize at herr ⊢
  by_cases hearly : ex.earlyReturn
  · simp only [hearly, if_true, if_pos] at herr ⊢
    exact hbase herr
  · simp only [hearly, Bool.false_eq_true, if_false] at herr ⊢
    cases hl : ex.lastErr with
    | none =>
      simp only [hl] at herr ⊢
      exact hbase herr
    | some e =>
      simp only [hl] at herr ⊢
      by_cases hm : ex.st.metrics.isEmpty
      · simp only [hm, if_true, if_pos] at herr ⊢
        exact List.isEmpty_iff.mp hm
      · simp only [hm, Bool.false_eq_true, if_false] at herr ⊢
        exact hbase herr

/-- The classified, context-annotated error `CollectWithRetry` derives
from attempt `i`'s outcome (`lastErr` after that attempt): none for a
success, otherwise the attempt error with operation and region attached
(raw errors first wrapped as internal `COLLECTION_ERROR`). -/
def attemptError (env : CollectEnv) (region : String) (i : Nat) : Option GoError :=
  match env.outcome i with
  | AttemptOutcome.success _ => none
  | AttemptOutcome.failure e => some (withRegion (withOperation e "collect") region)
  | AttemptOutcome.rawFailure _ =>
    some (withRegion (withOperation
      (wrapErr ErrType.internal "COLLECTION_ERROR" "collection failed") "collect") region)

lemma collectLoop_success_spec (env : CollectEnv) (eh : DefaultErrorHandler)
    (region : String) :
    ∀ (fuel attempt : Nat) (lastErr : Option GoError) (st : CollectState),
      st.successesRecorded = 0 → st.error = none → st.metrics = [] →
      st.attemptsMade = attempt →
      lastErr = (if attempt = 0 then none else attemptError env region (attempt - 1)) →
      (1 ≤ (collectLoop env eh region attempt fuel lastErr st).st.successesRecorded →
        ∃ k ms, env.outcome k = AttemptOutcome.success ms
          ∧ (collectLoop env eh region attempt fuel lastErr st).st.metrics = ms
          ∧ (collectLoop env eh region attempt fuel lastErr st).st.successesRecorded = 1
          ∧ (collectLoop env eh region attempt fuel lastErr st).st.attemptsMade = k + 1
          ∧ (collectLoop env eh region attempt fuel lastErr st).st.error = none
          ∧ (collectLoop env eh region attempt fuel lastErr st).earlyReturn = false
          ∧ (collectLoop env eh region attempt fuel lastErr st).lastErr
              = (if k = 0 then none else attemptError env region (k - 1))) := by
  intro fuel
  induction fuel with
  | zero =>
    intro attempt lastErr st hs he hm ha h0 hge
    simp only [collectLoop] at hge
    omega
  | succ fuel ih =>
    intro attempt lastErr st hs he hm ha h0
    simp only [collectLoop]
    by_cases hctx : env.ctxErr attempt
    · simp [hctx, hs]
    · simp only [hctx, Bool.false_eq_true, if_false]
      cases houtcome : env.outcome attempt with
      | success ms =>
        intro _
        exact ⟨attempt, ms, houtcome, by simp, by simp [hs], by simp [ha], by simp [he],
          by simp, by simpa using h0⟩
      | failure e =>
        simp only
        by_cases hr : defaultShouldRetry eh
            (some (withRegion (withOperation e "collect") region)) attempt
        · simp only [hr, not_true, if_false, if_neg]
          by_cases hlt : attempt < env.retries
          · simp only [hlt, if_true, if_pos]
            by_cases hw : env.waitCancelled attempt
            · simp [hw, hs]
            · simp only [hw, Bool.false_eq_true, if_false]
              exact ih (attempt + 1) _ _ (by simp [hs]) (by simp [he]) (by simp [hm])
                (by simp [ha]) (by simp [attemptError, houtcome])
          · simp only [hlt, if_false, if_neg]
            exact ih (attempt + 1) _ _ (by simp [hs]) (by simp [he]) (by simp [hm])
              (by simp [ha]) (by simp [attemptError, houtcome])
        · simp [hr, hs]
      | rawFailure msg =>
        simp only
        by_cases hr : defaultShouldRetry eh
            (some (withRegion (withOperation
              (wrapErr ErrType.internal "COLLECTION_ERROR" "collection failed") "collect") region)) attempt
        · simp only [hr, not_true, if_false, if_neg]
          by_cases hlt : attempt < env.retries
          · simp only [hlt, if_true, if_pos]
            by_cases hw : env.waitCancelled attempt
            · simp [hw, hs]
            · simp only [hw, Bool.false_eq_true, if_false]
              exact ih (attempt + 1) _ _ (by simp [hs]) (by simp [he]) (by simp [hm])
                (by simp [ha]) (by simp [attemptError, houtcome])
          · simp only [hlt, if_false, if_neg]
            exact ih (attempt + 1) _ _ (by simp [hs]) (by simp [he]) (by simp [hm])
              (by simp [ha]) (by simp [attemptError, houtcome])
        · simp [hr, hs]

/-- Environment refuting C6 as stated: retries = 1, attempt 0 fails with a
retryable connectivity error, attempt 1 succeeds with an empty metric
list. -/
def emptySuccessEnv : CollectEnv :=
  { retries := 1, ctxErr := fun _ => false, waitCancelled := fun _ => false,
    outcome := fun i => if i = 0 then AttemptOutcome.failure connectionError
      else AttemptOutcome.success [] }

/-- C6 counterexample: an execution in which attempt 1 (a success, with an
empty metric list, after a failed attempt 0) records a success, yet the
returned result carries a non-nil terminal error — the claim's "carries no
terminal error ... (possibly empty)" is false on the code. -/
theorem collectWithRetry_success_error_counterexample :
    (collectWithRetry emptySuccessEnv newDefaultErrorHandler "us-east-1").successesRecorded = 1
    ∧ (collectWithRetry emptySuccessEnv newDefaultErrorHandler "us-east-1").error ≠ none := by
  constructor
  · rfl
  · decide

/-- C6 amended: for every execution of `CollectWithRetry` in which some
attempt succeeds (success is recorded), exactly one success is recorded, no
further attempts are made after the succeeding attempt `k`, and the metric
sequence is exactly attempt `k`'s output; the result carries no terminal
error provided that output is non-empty or no earlier attempt failed; and
when the succeeding attempt returns an empty metric list, the terminal
error is exactly the last attempt's annotated error (none when `k = 0`,
the annotated error of attempt `k-1` otherwise). -/
theorem collectWithRetry_success_amended (env : CollectEnv)
    (eh : DefaultErrorHandler) (region : String)
    (hs : 1 ≤ (collectWithRetry env eh region).successesRecorded) :
    ∃ k ms, env.outcome k = AttemptOutcome.success ms
      ∧ (collectWithRetry env eh region).metrics = ms
      ∧ (collectWithRetry env eh region).successesRecorded = 1
      ∧ (collectWithRetry env eh region).attemptsMade = k + 1
      ∧ (k = 0 → (collectWithRetry env eh region).error = none)
      ∧ (ms ≠ [] → (collectWithRetry env eh region).error = none)
      ∧ ((collectWithRetry env eh region).error ≠ none → ms = [])
      ∧ (ms = [] → (collectWithRetry env eh region).error
          = if k = 0 then none else attemptError env region (k - 1)) := by
  unfold collectWithRetry at hs ⊢
  set ex := collectLoop env eh region 0 (env.retries + 1) none
    { metrics := [], error := none, attemptsMade := 0, successesRecorded := 0,
      errorsRecorded := 0 } with hex
  have hspec := collectLoop_success_spec env eh region (env.retries + 1) 0 none
    { metrics := [], error := none, attemptsMade := 0, successesRecorded := 0,
      errorsRecorded := 0 } rfl rfl rfl rfl rfl
  rw [← hex] at hspec
  have hsx : 1 ≤ ex.st.successesRecorded := by
    by_contra hcon
    have hzero : ex.st.successesRecorded = 0 := by omega
    unfold collectFinalize at hs
    by_cases hearly : ex.earlyReturn
    · simp [hearly, hzero] at hs
    · simp only [hearly, Bool.false_eq_true, if_false] at hs
      cases hl : ex.lastErr with
      | none => simp [hl, hzero] at hs
      | some e =>
        simp only [hl] at hs
        by_cases hm : ex.st.metrics.isEmpty
        · simp [hm, hzero] at hs
        · simp [hm, hzero] at hs
  obtain ⟨k, ms, ho, hmet, hone, hatt, herr, hearly, hlast⟩ := hspec hsx
  refine ⟨k, ms, ho, ?_, ?_, ?_, ?_, ?_, ?_, ?_⟩ <;>
    unfold collectFinalize <;>
    simp only [hearly, Bool.false_eq_true, if_false]
  · cases hl : ex.lastErr with
    | none => simpa using hmet
    | some e =>
      by_cases hm : ex.st.metrics.isEmpty
      · simp only [hl, hm, if_true, if_pos]
        exact hmet
      · simp only [hl, hm, Bool.false_eq_true, if_false]
        exact hmet
  · cases hl : ex.lastErr with
    | none => simpa using hone
    | some e =>
      by_cases hm : ex.st.metrics.isEmpty
      · simp only [hl, hm, if_true, if_pos]
        exact hone
      · simp only [hl, hm, Bool.false_eq_true, if_false]
        exact hone
  · cases hl : ex.lastErr with
    | none => simpa using hatt
    | some e =>
      by_cases hm : ex.st.metrics.isEmpty
      · simp only [hl, hm, if_true, if_pos]
        exact hatt
      · simp only [hl, hm, Bool.false_eq_true, if_false]
        exact hatt
  · intro hk
    have hl : ex.lastErr = none := by rw [hlast, if_pos hk]
    simp only [hl]
    exact herr
  · intro hne
    have hm : ex.st.metrics.isEmpty = false := by
      rw [hmet]
      cases ms with
      | nil => exact absurd rfl hne
      | cons a t => rfl
    cases hl : ex.lastErr with
    | none => simpa using herr
    | some e =>
      simp only [hl, hm, Bool.false_eq_true, if_false]
      exact herr
  · intro hres
    by_contra hne
    have hm : ex.st.metrics.isEmpty = false := by
      rw [hmet]
      cases ms with
      | nil => exact absurd rfl hne
      | cons a t => rfl
    cases hl : ex.lastErr with
    | none => simp [hl, herr] at hres
    | some e => simp [hl, hm, herr] at hres
  · intro hms
    have hm : ex.st.metrics.isEmpty = true := by
      rw [hmet, hms]
      rfl
    rw [← hlast]
    cases hl : ex.lastErr with
    | none => simpa using herr
    | some e => simp [hm]

/-- A unit of work that always fails with the permission error. -/
def alwaysPermissionEnv (retries : Nat) (e : GoError) : CollectEnv :=
  { retries := retries, ctxErr := fun _ => false, waitCancelled := fun _ => false,
    outcome := fun _ => AttemptOutcome.failure e }

/-- C3: with the explicit retryable flag unset and the attempt below the
retry budget, `ShouldRetry` follows the category table — connectivity,
timeout and rate-limit errors are retried; permission, configuration and
validation errors are not; internal errors only for the code allow-list;
AWS errors iff their code or message matches the transient-signature lists.
Consequently a unit of work that always fails with a permission error is
attempted exactly once and yields a terminal error of category permission
with an empty metric sequence. -/
theorem shouldRetry_category_table :
    (∀ (eh : DefaultErrorHandler) (err : GoError) (attempt : Nat),
      err.retryable = false → attempt < eh.maxRetries →
      ((err.etype = ErrType.network → defaultShouldRetry eh (some err) attempt = true)
        ∧ (err.etype = ErrType.timeout → defaultShouldRetry eh (some err) attempt = true)
        ∧ (err.etype = ErrType.rateLimit → defaultShouldRetry eh (some err) attempt = true)
        ∧ (err.etype = ErrType.permission → defaultShouldRetry eh (some err) attempt = false)
        ∧ (err.etype = ErrType.config → defaultShouldRetry eh (some err) attempt = false)
        ∧ (err.etype = ErrType.validation → defaultShouldRetry eh (some err) attempt = false)
        ∧ (err.etype = ErrType.internal →
            (defaultShouldRetry eh (some err) attempt = true ↔
              err.code ∈ retryableInternalCodes))
        ∧ (err.etype = ErrType.aws →
            (defaultShouldRetry eh (some err) attempt = true ↔
              ((∃ c ∈ retryableAWSCodes,
                  strContains err.code c = true ∨ strContains err.message c = true)
                ∨ ∃ p ∈ retryablePatterns,
                    strContains (strToLower err.message) p = true)))))
    ∧ (∀ (retries : Nat) (region : String) (e : GoError),
        e.etype = ErrType.permission → e.retryable = false →
        (collectWithRetry (alwaysPermissionEnv retries e) newDefaultErrorHandler region).attemptsMade = 1
        ∧ (collectWithRetry (alwaysPermissionEnv retries e) newDefaultErrorHandler region).metrics = []
        ∧ ∃ e2, (collectWithRetry (alwaysPermissionEnv retries e) newDefaultErrorHandler region).error = some e2
            ∧ e2.etype = ErrType.permission) := by
  constructor
  · intro eh err attempt hflag hatt
    have hnot : ¬ attempt ≥ eh.maxRetries := not_le.mpr hatt
    refine ⟨?_, ?_, ?_, ?_, ?_, ?_, ?_, ?_⟩ <;> intro htype <;>
      simp only [defaultShouldRetry, hnot, if_false, hflag, Bool.false_eq_true, htype, if_neg]
    · rw [shouldRetryInternalError, List.any_eq_true]
      constructor
      · rintro ⟨c, hc, heq⟩
        simp only [decide_eq_true_eq] at heq
        exact heq ▸ hc
      · intro hc
        exact ⟨err.code, hc, by simp⟩
    · rw [shouldRetryAWSError, Bool.or_eq_true, List.any_eq_true, List.any_eq_true]
      constructor
      · rintro (⟨c, hc, heq⟩ | ⟨p, hp, heq⟩)
        · rw [Bool.or_eq_true] at heq
          exact Or.inl ⟨c, hc, heq⟩
        · exact Or.inr ⟨p, hp, heq⟩
      · rintro (⟨c, hc, heq⟩ | ⟨p, hp, heq⟩)
        · exact Or.inl ⟨c, hc, by simp only [Bool.or_eq_true]; exact heq⟩
        · exact Or.inr ⟨p, hp, heq⟩
  · intro retries region e htype hflag
    have hsr : defaultShouldRetry newDefaultErrorHandler
        (some (withRegion (withOperation e "collect") region)) 0 = false := by
      simp [defaultShouldRetry, newDefaultErrorHandler, withRegion, withOperation, hflag, htype]
    refine ⟨?_, ?_, ⟨withRegion (withOperation e "collect") region, ?_, htype⟩⟩ <;>
      simp [collectWithRetry, collectLoop, collectFinalize, alwaysPermissionEnv, hsr]

/-- Witness for C3 at concrete inputs: the table applied to a
network-category error with the explicit flag unset and to the concrete
permission error at attempt 0, and the permission consequence at
retries = 2. -/
theorem shouldRetry_category_table_witness :
    (defaultShouldRetry newDefaultErrorHandler
      (some (newError ErrType.network "CONNECTION_RESET" "connection reset by peer")) 0 = true)
    ∧ (defaultShouldRetry newDefaultErrorHandler (some permissionError) 0 = false)
    ∧ (collectWithRetry (alwaysPermissionEnv 2 permissionError) newDefaultErrorHandler "us-east-1").attemptsMade = 1
    ∧ (collectWithRetry (alwaysPermissionEnv 2 permissionError) newDefaultErrorHandler "us-east-1").metrics = []
    ∧ ∃ e2, (collectWithRetry (alwaysPermissionEnv 2 permissionError) newDefaultErrorHandler "us-east-1").error = some e2
        ∧ e2.etype = ErrType.permission := by
  obtain ⟨htable, hcons⟩ := shouldRetry_category_table
  obtain ⟨h1, h2, h3⟩ := hcons 2 "us-east-1" permissionError rfl rfl
  exact ⟨(htable newDefaultErrorHandler
      (newError ErrType.network "CONNECTION_RESET" "connection reset by peer") 0 rfl (by decide)).1 rfl,
    (htable newDefaultErrorHandler permissionError 0 rfl (by decide)).2.2.2.1 rfl,
    h1, h2, h3⟩

/-- Witness for C5 at a concrete input: the always-failing permission
environment yields a terminal error, so the metric sequence is empty. -/
theorem collectWithRetry_error_empty_metrics_witness :
    (collectWithRetry (alwaysPermissionEnv 1 permissionError) newDefaultErrorHandler "eu-west-1").error ≠ none
    ∧ (collectWithRetry (alwaysPermissionEnv 1 permissionError) newDefaultErrorHandler "eu-west-1").metrics = [] :=
  ⟨by decide, collectWithRetry_error_empty_metrics _ _ _ (by decide)⟩

/-- A metric the success scenarios return (labels as produced by
`CreateMetric` are irrelevant here). -/
def sampleMetric : MetricData :=
  { mname := "success_metric", value := 1, unit := "Count", timestamp := 0,
    labels := [], description := "" }

/-- The spec scenario environment: connectivity failures on attempts 0 and
1, success with one metric on attempt 2, retries = 2. -/
def retryThenSuccessEnv : CollectEnv :=
  { retries := 2, ctxErr := fun _ => false, waitCancelled := fun _ => false,
    outcome := fun i => if i ≤ 1 then AttemptOutcome.failure connectionError
      else AttemptOutcome.success [sampleMetric] }

/-- Witness for the amended C6 at a concrete input: in the
fail-fail-succeed scenario a success is recorded, and the amended
conclusions follow. -/
theorem collectWithRetry_success_amended_witness :
    ∃ k ms, retryThenSuccessEnv.outcome k = AttemptOutcome.success ms
      ∧ (collectWithRetry retryThenSuccessEnv newDefaultErrorHandler "us-east-1").metrics = ms
      ∧ (collectWithRetry retryThenSuccessEnv newDefaultErrorHandler "us-east-1").successesRecorded = 1
      ∧ (collectWithRetry retryThenSuccessEnv newDefaultErrorHandler "us-east-1").attemptsMade = k + 1
      ∧ (k = 0 → (collectWithRetry retryThenSuccessEnv newDefaultErrorHandler "us-east-1").error = none)
      ∧ (ms ≠ [] → (collectWithRetry retryThenSuccessEnv newDefaultErrorHandler "us-east-1").error = none)
      ∧ ((collectWithRetry retryThenSuccessEnv newDefaultErrorHandler "us-east-1").error ≠ none → ms = [])
      ∧ (ms = [] → (collectWithRetry retryThenSuccessEnv newDefaultErrorHandler "us-east-1").error
          = if k = 0 then none else attemptError retryThenSuccessEnv "us-east-1" (k - 1)) :=
  collectWithRetry_success_amended retryThenSuccessEnv newDefaultErrorHandler "us-east-1" (by decide)

/-- C4 counterexample: at attempt 34 the float64 value `1s * 2^34` no
longer fits int64, the conversion yields `math.MinInt64`, and the code
returns the 100ms floor — strictly below the claimed clamped band, whose
lower end at that attempt is the 30s cap.  The claim's "every attempt
number" is therefore false on the code. -/
theorem getRetryDelay_overflow_counterexample :
    getRetryDelay newDefaultErrorHandler (some connectionError) 34 0 = minRetryDelay
    ∧ getRetryDelay newDefaultErrorHandler (some connectionError) 34 0
        < max minRetryDelay (min maxRetryDelay (3 * (1000000000 * 2 ^ 34) / 4)) := by
  constructor <;> decide

/-- C4 amended: when the error carries an explicit retry-after, that value
is returned verbatim (every attempt).  Otherwise, for the default handler
(base delay 1s) and every attempt at which the exponential value still
fits int64 (attempt ≤ 33), the returned delay lies within the ±25% jitter
band around `base * 2^attempt`, with both interval ends clamped into the
configured [100ms, 30s] window; past that the float-to-int64 conversion
overflows and the code returns the 100ms floor instead. -/
theorem getRetryDelay_spec :
    (∀ (eh : DefaultErrorHandler) (err : GoError) (attempt now : Nat) (ra : Int),
      err.retryAfter = some ra → getRetryDelay eh (some err) attempt now = ra)
    ∧ (∀ (err : GoError) (attempt now : Nat),
      attempt ≤ 33 →
      err.retryAfter = none →
      max minRetryDelay (min maxRetryDelay (3 * (1000000000 * 2 ^ attempt) / 4))
          ≤ getRetryDelay newDefaultErrorHandler (some err) attempt now
        ∧ getRetryDelay newDefaultErrorHandler (some err) attempt now
          ≤ max minRetryDelay (min maxRetryDelay (5 * (1000000000 * 2 ^ attempt) / 4))) := by
  constructor
  · intro eh err attempt now ra hra
    simp [getRetryDelay, getRetryAfter, hra]
  · intro err attempt now hatt hra
    simp only [getRetryDelay, getRetryAfter, hra, newDefaultErrorHandler]
    set P : Int := 2 ^ attempt with hPdef
    have hPpos : 0 < P := by positivity
    have hP33 : P ≤ 2 ^ 33 := by
      rw [hPdef]
      exact pow_le_pow_right₀ (by norm_num) hatt
    have hmax : (1000000000 : Int) * P ≤ 9223372036854775807 := by nlinarith
    have hfit1 : f64ToInt64 (1000000000 * P) = 1000000000 * P := by
      rw [f64ToInt64, if_neg]
      rintro (h | h) <;> omega
    rw [hfit1]
    have hdiv : (1000000000 * P) / 4 = 250000000 * P := by
      rw [show (1000000000 : Int) * P = 4 * (250000000 * P) by ring]
      exact Int.mul_ediv_cancel_left _ (by norm_num)
    have hdiv3 : 3 * (1000000000 * P) / 4 = 750000000 * P := by
      rw [show (3 : Int) * (1000000000 * P) = 4 * (750000000 * P) by ring]
      exact Int.mul_ediv_cancel_left _ (by norm_num)
    have hdiv5 : 5 * (1000000000 * P) / 4 = 1250000000 * P := by
      rw [show (5 : Int) * (1000000000 * P) = 4 * (1250000000 * P) by ring]
      exact Int.mul_ediv_cancel_left _ (by norm_num)
    rw [hdiv, hdiv3, hdiv5]
    have hfit2 : f64ToInt64 (250000000 * P) = 250000000 * P := by
      rw [f64ToInt64, if_neg]
      rintro (h | h) <;> omega
    rw [hfit2]
    set m : Int := 2 * (now : Int) % (250000000 * P) with hmdef
    have hm0 : 0 ≤ m := Int.emod_nonneg _ (by positivity)
    have hm1 : m < 250000000 * P := Int.emod_lt_of_pos _ (by positivity)
    simp only [minRetryDelay, maxRetryDelay, min_def, max_def]
    split_ifs <;> constructor <;> omega

/-- A rate-limit error carrying an explicit retry-after of 5s. -/
def rateLimitError : GoError :=
  { etype := ErrType.rateLimit, code := "Throttling", message := "rate exceeded",
    retryable := false, retryAfter := some 5000000000, operation := "", region := "" }

/-- Witness for the amended C4 at concrete inputs: the explicit
retry-after of the rate-limit error is returned verbatim, and the
connectivity error (no retry-after) at attempt 0 with a concrete clock
value gets a delay inside the clamped jitter band. -/
theorem getRetryDelay_spec_witness :
    getRetryDelay newDefaultErrorHandler (some rateLimitError) 1 12345 = 5000000000
    ∧ (max minRetryDelay (min maxRetryDelay (3 * (1000000000 * 2 ^ 0) / 4))
          ≤ getRetryDelay newDefaultErrorHandler (some connectionError) 0 12345
        ∧ getRetryDelay newDefaultErrorHandler (some connectionError) 0 12345
          ≤ max minRetryDelay (min maxRetryDelay (5 * (1000000000 * 2 ^ 0) / 4))) :=
  ⟨getRetryDelay_spec.1 newDefaultErrorHandler rateLimitError 1 12345 5000000000 rfl,
   getRetryDelay_spec.2 connectionError 0 12345 (by decide) rfl⟩

/-! ## Metric creation (`BaseCollector.CreateMetric` and
`getCommonLabels`, src/internal/collectors/base.go lines 184-205 and
332-344).  Go maps of labels are association lists; insertion overwrites an
existing key in place and appends a missing one. -/

/-- Whether the label map has the key. -/
def hasKey (m : List (String × String)) (k : String) : Bool :=
  m.any (fun p => p.1 = k)

/-- Label-map lookup. -/
def mapLookup (m : List (String × String)) (k : String) : Option String :=
  (m.find? (fun p => p.1 = k)).map Prod.snd

/-- Go map assignment `m[k] = v`. -/
def mapInsert (m : List (String × String)) (k v : String) : List (String × String) :=
  if hasKey m k then m.map (fun p => if p.1 = k then (k, v) else p)
  else m ++ [(k, v)]

/-- First-some choice, the shape `find?` takes over appended maps. -/
def optOr (a b : Option String) : Option String :=
  match a with
  | some v => some v
  | none => b

/-- `BaseCollector.getCommonLabels`: the base map `collector`/`service`,
then the configured custom tags inserted over it (in the Go map's
iteration order, modelled by list order). -/
def getCommonLabels (cname : String) (customTags : List (String × String)) :
    List (String × String) :=
  customTags.foldl (fun m kv => mapInsert m kv.1 kv.2)
    [("collector", cname), ("service", "aws-monitor")]

/-- The merge loop of `CreateMetric`: common labels only fill in keys the
caller's map is missing. -/
def fillMissing (ls : List (String × String)) (common : List (String × String)) :
    List (String × String) :=
  common.foldl (fun acc kv => if hasKey acc kv.1 then acc else acc ++ [kv]) ls

/-- The label set `CreateMetric` attaches: the common labels when the
caller passes nil, otherwise the caller's map with missing common labels
filled in. -/
def createMetricLabels (cname : String) (customTags : List (String × String))
    (labels : Option (List (String × String))) : List (String × String) :=
  match labels with
  | none => getCommonLabels cname customTags
  | some ls => fillMissing ls (getCommonLabels cname customTags)

/-- `BaseCollector.CreateMetric`. -/
def createMetric (cname : String) (customTags : List (String × String))
    (mname : String) (value : Int) (unit : String)
    (labels : Option (List (String × String))) (now : Nat) : MetricData :=
  { mname := mname, value := value, unit := unit, timestamp := now,
    labels := createMetricLabels cname customTags labels, description := "" }

lemma mapLookup_cons (k0 v0 : String) (m : List (String × String)) (k : String) :
    mapLookup ((k0, v0) :: m) k = if k0 = k then some v0 else mapLookup m k := by
  by_cases h : k0 = k <;> simp [mapLookup, List.find?, h]

lemma mapLookup_append_single (m : List (String × String)) (k0 v0 k : String) :
    mapLookup (m ++ [(k0, v0)]) k
      = optOr (mapLookup m k) (if k0 = k then some v0 else none) := by
  induction m with
  | nil => by_cases h : k0 = k <;> simp [mapLookup, List.find?, h, optOr]
  | cons p rest ih =>
    obtain ⟨k1, v1⟩ := p
    by_cases h : k1 = k
    · simp [List.cons_append, mapLookup_cons, h, optOr]
    · simp only [List.cons_append, mapLookup_cons, h, if_false, if_neg, ih]

lemma hasKey_iff_isSome (m : List (String × String)) (k : String) :
    hasKey m k = true ↔ (mapLookup m k).isSome = true := by
  induction m with
  | nil => simp [hasKey, mapLookup]
  | cons p rest ih =>
    obtain ⟨k1, v1⟩ := p
    by_cases h : k1 = k
    · simp [hasKey, mapLookup_cons, h]
    · simp only [hasKey, List.any_cons, mapLookup_cons, h, if_false, if_neg,
        decide_eq_true_eq, Bool.or_eq_true, false_or]
      simpa [hasKey] using ih

lemma mapLookup_insert_same (m : List (String × String)) (k v : String) :
    mapLookup (mapInsert m k v) k = some v := by
  rw [mapInsert]
  by_cases hk : hasKey m k
  · simp only [hk, if_true, if_pos]
    induction m with
    | nil => simp [hasKey] at hk
    | cons p rest ih =>
      obtain ⟨k1, v1⟩ := p
      by_cases h : k1 = k
      · simp [mapLookup, List.find?, h]
      · have hk2 : hasKey rest k = true := by
          simpa [hasKey, List.any_cons, h] using hk
        simp only [List.map_cons, if_neg h]
        rw [mapLookup_cons]
        simp only [h, if_false, if_neg]
        exact ih hk2
  · simp only [hk, Bool.false_eq_true, if_false]
    rw [mapLookup_append_single]
    have hnone : mapLookup m k = none := by
      cases hcase : mapLookup m k with
      | none => rfl
      | some v2 =>
        exfalso
        exact hk ((hasKey_iff_isSome m k).mpr (by simp [hcase]))
    simp [hnone, optOr]

lemma optOr_none (a : Option String) : optOr a none = a := by
  cases a <;> rfl

lemma mapLookup_map_overwrite (k2 v k : String) (hne : k2 ≠ k) :
    ∀ m : List (String × String),
      mapLookup (m.map (fun p => if p.1 = k2 then (k2, v) else p)) k = mapLookup m k := by
  intro m
  induction m with
  | nil => rfl
  | cons p rest ih =>
    obtain ⟨k1, v1⟩ := p
    simp only [List.map_cons]
    by_cases h : k1 = k2
    · rw [if_pos (by simpa using h)]
      rw [mapLookup_cons, mapLookup_cons]
      have hk1b : ¬ k1 = k := by rw [h]; exact hne
      rw [if_neg hne, if_neg hk1b]
      exact ih
    · rw [if_neg (by simpa using h)]
      rw [mapLookup_cons, mapLookup_cons]
      by_cases h4 : k1 = k
      · simp [h4]
      · rw [if_neg h4, if_neg h4]
        exact ih

lemma mapLookup_insert_ne (m : List (String × String)) (k2 v k : String)
    (hne : k2 ≠ k) : mapLookup (mapInsert m k2 v) k = mapLookup m k := by
  rw [mapInsert]
  by_cases hk : hasKey m k2
  · simp only [hk, if_true, if_pos]
    exact mapLookup_map_overwrite k2 v k hne m
  · simp only [hk, Bool.false_eq_true, if_false]
    rw [mapLookup_append_single, if_neg hne, optOr_none]

lemma fillMissing_lookup (k : String) :
    ∀ (common ls : List (String × String)),
      mapLookup (fillMissing ls common) k = optOr (mapLookup ls k) (mapLookup common k) := by
  intro common
  induction common with
  | nil =>
    intro ls
    exact (optOr_none (mapLookup ls k)).symm
  | cons p rest ih =>
    intro ls
    obtain ⟨k0, v0⟩ := p
    show mapLookup (fillMissing (if hasKey ls k0 then ls else ls ++ [(k0, v0)]) rest) k = _
    by_cases hk : hasKey ls k0
    · simp only [hk, if_true, if_pos]
      rw [ih ls, mapLookup_cons]
      by_cases h : k0 = k
      · subst h
        have hsome : (mapLookup ls k0).isSome = true := (hasKey_iff_isSome ls k0).mp hk
        cases hcase : mapLookup ls k0 with
        | none => rw [hcase] at hsome; cases hsome
        | some v2 => simp [optOr]
      · simp only [h, if_false, if_neg]
    · simp only [hk, Bool.false_eq_true, if_false]
      rw [ih (ls ++ [(k0, v0)]), mapLookup_append_single, mapLookup_cons]
      have hnone : mapLookup ls k0 = none := by
        cases hcase : mapLookup ls k0 with
        | none => rfl
        | some v2 => exact absurd ((hasKey_iff_isSome ls k0).mpr (by simp [hcase])) hk
      by_cases h : k0 = k
      · subst h
        simp [hnone, optOr]
      · simp only [h, if_false, if_neg]
        cases hcase : mapLookup ls k <;> simp [optOr]

lemma getCommonLabels_collector_of_clean (cname : String) :
    ∀ (tags : List (String × String)), (∀ kv ∈ tags, kv.1 ≠ "collector") →
      mapLookup (getCommonLabels cname tags) "collector" = some cname := by
  have main : ∀ (tags : List (String × String)) (acc : List (String × String)),
      (∀ kv ∈ tags, kv.1 ≠ "collector") →
      mapLookup acc "collector" = some cname →
      mapLookup (tags.foldl (fun m kv => mapInsert m kv.1 kv.2) acc) "collector" = some cname := by
    intro tags
    induction tags with
    | nil => intro acc _ hacc; simpa using hacc
    | cons kv rest ih =>
      intro acc hclean hacc
      simp only [List.foldl_cons]
      exact ih (mapInsert acc kv.1 kv.2)
        (fun kv2 h2 => hclean kv2 (List.mem_cons_of_mem kv h2))
        (by rw [mapLookup_insert_ne _ _ _ _ (hclean kv (List.mem_cons_self kv rest))]; exact hacc)
  intro tags hclean
  exact main tags _ hclean (by simp [mapLookup, List.find?])

lemma getCommonLabels_collector_isSome (cname : String) :
    ∀ (tags : List (String × String)),
      (mapLookup (getCommonLabels cname tags) "collector").isSome = true := by
  have main : ∀ (tags : List (String × String)) (acc : List (String × String)),
      (mapLookup acc "collector").isSome = true →
      (mapLookup (tags.foldl (fun m kv => mapInsert m kv.1 kv.2) acc) "collector").isSome = true := by
    intro tags
    induction tags with
    | nil => intro acc hacc; simpa using hacc
    | cons kv rest ih =>
      intro acc hacc
      simp only [List.foldl_cons]
      refine ih (mapInsert acc kv.1 kv.2) ?_
      by_cases h : kv.1 = "collector"
      · rw [← h, mapLookup_insert_same]
        rfl
      · rw [mapLookup_insert_ne _ _ _ _ h]
        exact hacc
  intro tags
  exact main tags _ (by simp [mapLookup, List.find?])

/-- C7 counterexample: a caller-supplied `"collector"` label does
overwrite the identifying label — `CreateMetric` only fills in keys the
caller's map is missing, with no protection for the reserved key, so the
metric produced by collector `"test-collector"` with caller labels
`{"collector": "other"}` carries `collector = "other"`, not the producing
collector's name. -/
theorem createMetric_collector_overwritten :
    mapLookup (createMetric "test-collector" [] "test_metric" 42 "Count"
      (some [("collector", "other")]) 0).labels "collector" = some "other"
    ∧ mapLookup (createMetric "test-collector" [] "test_metric" 42 "Count"
      (some [("collector", "other")]) 0).labels "collector" ≠ some "test-collector" := by
  constructor <;> decide

/-- C7 amended: the label set always contains the key `"collector"`; its
value is the producing collector's name whenever neither the caller's map
nor the configured custom tags supply their own `"collector"` entry; for
every key the caller-supplied value wins over the common/default labels,
which only fill in keys missing from the caller's map (so a caller- or
custom-tag-supplied `"collector"` entry does overwrite the identifying
label). -/
theorem createMetric_labels_amended (cname : String)
    (tags : List (String × String)) (mname : String) (value : Int)
    (unit : String) (ls : List (String × String)) (now : Nat) :
    ((mapLookup (createMetric cname tags mname value unit (some ls) now).labels "collector").isSome = true)
    ∧ ((mapLookup (createMetric cname tags mname value unit none now).labels "collector").isSome = true)
    ∧ ((∀ kv ∈ tags, kv.1 ≠ "collector") → mapLookup ls "collector" = none →
        mapLookup (createMetric cname tags mname value unit (some ls) now).labels "collector" = some cname)
    ∧ ((∀ kv ∈ tags, kv.1 ≠ "collector") →
        mapLookup (createMetric cname tags mname value unit none now).labels "collector" = some cname)
    ∧ (∀ k v, mapLookup ls k = some v →
        mapLookup (createMetric cname tags mname value unit (some ls) now).labels k = some v) := by
  refine ⟨?_, ?_, ?_, ?_, ?_⟩
  · show (mapLookup (fillMissing ls (getCommonLabels cname tags)) "collector").isSome = true
    rw [fillMissing_lookup]
    cases hls : mapLookup ls "collector" with
    | some v => simp [optOr]
    | none =>
      simp only [optOr]
      exact getCommonLabels_collector_isSome cname tags
  · exact getCommonLabels_collector_isSome cname tags
  · intro hclean hls
    show mapLookup (fillMissing ls (getCommonLabels cname tags)) "collector" = some cname
    rw [fillMissing_lookup, hls]
    simp only [optOr]
    exact getCommonLabels_collector_of_clean cname tags hclean
  · intro hclean
    exact getCommonLabels_collector_of_clean cname tags hclean
  · intro k v hkv
    show mapLookup (fillMissing ls (getCommonLabels cname tags)) k = some v
    rw [fillMissing_lookup, hkv]
    rfl

/-- Witness for the amended C7 at concrete inputs, mirroring the
CreateMetric test: custom tags `environment`/`team`, caller labels
`region`/`instance`; the label set keeps the caller's values, carries the
identifying collector label, and contains the key in all cases. -/
theorem createMetric_labels_amended_witness :
    ((mapLookup (createMetric "test-collector" [("environment", "test"), ("team", "platform")]
        "test_metric" 42 "Count" (some [("region", "us-east-1"), ("instance", "i-1234567890abcdef0")]) 0).labels
        "collector").isSome = true)
    ∧ ((mapLookup (createMetric "test-collector" [("environment", "test"), ("team", "platform")]
        "test_metric" 42 "Count" none 0).labels "collector").isSome = true)
    ∧ (mapLookup (createMetric "test-collector" [("environment", "test"), ("team", "platform")]
        "test_metric" 42 "Count" (some [("region", "us-east-1"), ("instance", "i-1234567890abcdef0")]) 0).labels
        "collector" = some "test-collector")
    ∧ (mapLookup (createMetric "test-collector" [("environment", "test"), ("team", "platform")]
        "test_metric" 42 "Count" none 0).labels "collector" = some "test-collector")
    ∧ (mapLookup (createMetric "test-collector" [("environment", "test"), ("team", "platform")]
        "test_metric" 42 "Count" (some [("region", "us-east-1"), ("instance", "i-1234567890abcdef0")]) 0).labels
        "region" = some "us-east-1") := by
  obtain ⟨h1, h2, h3, h4, h5⟩ := createMetric_labels_amended "test-collector"
    [("environment", "test"), ("team", "platform")] "test_metric" 42 "Count"
    [("region", "us-east-1"), ("instance", "i-1234567890abcdef0")] 0
  exact ⟨h1, h2, h3 (by decide) (by decide), h4 (by decide),
    h5 "region" "us-east-1" (by decide)⟩

/-! ## Scheduler (src/internal/scheduler/scheduler.go) -/

/-- `scheduler.Status` and its constants
starting/running/stopping/stopped/error (package scheduler declarations,
staged in src/internal/aws/client_test.go). -/
inductive SchedStatus where
  | stopped
  | starting
  | running
  | stopping
  | error
deriving DecidableEq, Repr

/-- The scheduler state `Health` reads: status, last tick time, configured
tick interval (nanoseconds).  `ScheduledJob`'s `LastRun`/`LastResult` and
the remaining `Config` fields are not read by the embedded paths. -/
structure SchedulerView where
  status : SchedStatus
  lastTickTime : Option Nat
  tickInterval : Nat
deriving DecidableEq, Repr

/-- `MetricScheduler.Health` (scheduler.go lines 251-273).  `now` is the
`time.Now()` behind `time.Since`. -/
def schedulerHealth (s : SchedulerView) (now : Nat) : Option GoError :=
  match s.status with
  | SchedStatus.running =>
    match s.lastTickTime with
    | some t =>
      if now - t > 2 * s.tickInterval then
        some (newValidationError "SCHEDULER_NOT_TICKING" "scheduler has not ticked recently")
      else none
    | none => none
  | SchedStatus.error =>
    some (newValidationError "SCHEDULER_ERROR" "scheduler is in error state")
  | SchedStatus.stopped =>
    some (newValidationError "SCHEDULER_STOPPED" "scheduler is stopped")
  | _ =>
    some (newValidationError "SCHEDULER_NOT_READY" "scheduler is not ready")

/-- C8 counterexample: a scheduler in the `starting` state — which is
neither stopped nor in the error state and has no stale tick (no tick at
all) — still gets a non-nil structured error from `Health`
(`SCHEDULER_NOT_READY`), so "returns nil unless stopped, in error state, or
the last tick is older than twice the tick interval" is false on the code;
the same holds for `stopping`. -/
theorem schedulerHealth_starting_counterexample :
    schedulerHealth ⟨SchedStatus.starting, none, 1000⟩ 0 ≠ none
    ∧ SchedStatus.starting ≠ SchedStatus.stopped
    ∧ SchedStatus.starting ≠ SchedStatus.error
    ∧ (⟨SchedStatus.starting, none, 1000⟩ : SchedulerView).lastTickTime = none := by
  refine ⟨by decide, by decide, by decide, rfl⟩

/-- C8 amended: `Health` returns nil exactly when the scheduler is running
and its last tick (if any) is at most twice the tick interval old; in every
other case — stopped, error state, starting, stopping, or a running
scheduler whose last tick is older than twice the tick interval — it
returns a structured error. -/
theorem schedulerHealth_amended (s : SchedulerView) (now : Nat) :
    schedulerHealth s now = none ↔
      (s.status = SchedStatus.running
        ∧ ∀ t, s.lastTickTime = some t → now - t ≤ 2 * s.tickInterval) := by
  obtain ⟨st, ltt, ti⟩ := s
  cases st <;> simp only [schedulerHealth]
  · simp
  · simp
  · cases ltt with
    | none => simp
    | some t =>
      by_cases h : now - t > 2 * ti
      · simp only [h, if_true, if_pos]
        simp
        omega
      · simp only [h, if_false, if_neg]
        simp
        omega
  · simp
  · simp

/-! ## Scheduler tick dispatch (`MetricScheduler.tick`, scheduler.go lines
319-349) -/

/-- `ScheduledJob` (fields the tick path reads; timestamps in
nanoseconds). -/
structure ScheduledJob where
  id : String
  collectorName : String
  region : String
  interval : Nat
  nextRun : Nat
  enabled : Bool
deriving DecidableEq, Repr

/-- The `jobsToRun` snapshot of `tick`: jobs that are enabled, strictly
past their next-run time (`now.After(job.NextRun)`), and not in the
active-job set. -/
def dueJobs (jobs : List ScheduledJob) (active : List String) (now : Nat) :
    List ScheduledJob :=
  jobs.filter (fun j => j.enabled && decide (j.nextRun < now) && ! active.contains j.id)

/-- The dispatch loop of `tick`: each due job takes one semaphore slot if
one is free (launched) and is otherwise skipped.  The buffered-channel
semaphore is modelled by the count of free slots during the tick.  Returns
(launched, skipped). -/
def dispatchLoop : List ScheduledJob → Nat → List ScheduledJob × List ScheduledJob
  | [], _ => ([], [])
  | j :: rest, 0 => ((dispatchLoop rest 0).1, j :: (dispatchLoop rest 0).2)
  | j :: rest, slots + 1 => (j :: (dispatchLoop rest slots).1, (dispatchLoop rest slots).2)

/-- `MetricScheduler.tick`: snapshot the due jobs, then dispatch each under
the semaphore. -/
def tick (jobs : List ScheduledJob) (active : List String) (now : Nat)
    (freeSlots : Nat) : List ScheduledJob × List ScheduledJob :=
  dispatchLoop (dueJobs jobs active now) freeSlots

lemma dispatchLoop_eq_take_drop :
    ∀ (l : List ScheduledJob) (n : Nat), dispatchLoop l n = (l.take n, l.drop n) := by
  intro l
  induction l with
  | nil => intro n; cases n <;> rfl
  | cons j rest ih =>
    intro n
    cases n with
    | zero => simp [dispatchLoop, ih]
    | succ m => simp [dispatchLoop, ih]

/-- C9: on every tick, every dispatched job is a registered job that is
enabled, strictly past its next-run time, and not in the active set (in
particular a disabled job is never dispatched); when enough semaphore
slots are free the dispatched set is exactly the due set; dispatched and
skipped jobs together are exactly the due jobs (nothing is queued), and a
due job skipped for lack of a slot is unchanged and still due at any later
tick at which it is not active. -/
theorem tick_dispatch_spec :
    (∀ (jobs : List ScheduledJob) (active : List String) (now slots : Nat)
        (j : ScheduledJob), j ∈ (tick jobs active now slots).1 →
      j ∈ jobs ∧ j.enabled = true ∧ j.nextRun < now ∧ active.contains j.id = false)
    ∧ (∀ (jobs : List ScheduledJob) (active : List String) (now slots : Nat)
        (j : ScheduledJob), j.enabled = false → j ∉ (tick jobs active now slots).1)
    ∧ (∀ (jobs : List ScheduledJob) (active : List String) (now slots : Nat),
        (dueJobs jobs active now).length ≤ slots →
        (tick jobs active now slots).1 = dueJobs jobs active now)
    ∧ (∀ (jobs : List ScheduledJob) (active : List String) (now slots : Nat),
        (tick jobs active now slots).1 ++ (tick jobs active now slots).2
          = dueJobs jobs active now)
    ∧ (∀ (jobs : List ScheduledJob) (active : List String) (now slots : Nat)
        (j : ScheduledJob) (now2 : Nat) (active2 : List String),
        j ∈ (tick jobs active now slots).2 → now ≤ now2 →
        active2.contains j.id = false → j ∈ dueJobs jobs active2 now2) := by
  have hmem : ∀ (jobs : List ScheduledJob) (active : List String) (now : Nat)
      (j : ScheduledJob), j ∈ dueJobs jobs active now →
      j ∈ jobs ∧ j.enabled = true ∧ j.nextRun < now ∧ active.contains j.id = false := by
    intro jobs active now j hj
    obtain ⟨hjobs, hpred⟩ := List.mem_filter.mp hj
    simp only [Bool.and_eq_true, decide_eq_true_eq, Bool.not_eq_true'] at hpred
    exact ⟨hjobs, hpred.1.1, hpred.1.2, hpred.2⟩
  refine ⟨?_, ?_, ?_, ?_, ?_⟩
  · intro jobs active now slots j hj
    rw [tick, dispatchLoop_eq_take_drop] at hj
    exact hmem jobs active now j (List.mem_of_mem_take hj)
  · intro jobs active now slots j hdis hj
    have := (hmem jobs active now j
      (by rw [tick, dispatchLoop_eq_take_drop] at hj; exact List.mem_of_mem_take hj)).2.1
    rw [hdis] at this
    cases this
  · intro jobs active now slots hle
    rw [tick, dispatchLoop_eq_take_drop]
    exact List.take_of_length_le hle
  · intro jobs active now slots
    rw [tick, dispatchLoop_eq_take_drop]
    exact List.take_append_drop _ _
  · intro jobs active now slots j now2 active2 hj hle hact
    rw [tick, dispatchLoop_eq_take_drop] at hj
    obtain ⟨hjobs, hen, hrun, _⟩ := hmem jobs active now j (List.mem_of_mem_drop hj)
    refine List.mem_filter.mpr ⟨hjobs, ?_⟩
    simp only [Bool.and_eq_true, decide_eq_true_eq, Bool.not_eq_true']
    exact ⟨⟨hen, by omega⟩, hact⟩

/-- Witness for C9 at concrete inputs: with one free slot and two due jobs
(one disabled job and one active job filtered out), the first due job is
launched with the stated properties; with enough slots the launched set is
the due set; launched and skipped partition the due set; and the skipped
due job is still due at a later tick. -/
theorem tick_dispatch_spec_witness :
    ((⟨"ec2-a", "ec2", "a", 10, 0, true⟩ : ScheduledJob) ∈
        (tick [⟨"ec2-a", "ec2", "a", 10, 0, true⟩, ⟨"ec2-b", "ec2", "b", 10, 0, true⟩,
          ⟨"rds-a", "rds", "a", 10, 0, false⟩, ⟨"s3-a", "s3", "a", 10, 0, true⟩]
          ["s3-a"] 5 1).1
      → (⟨"ec2-a", "ec2", "a", 10, 0, true⟩ : ScheduledJob).enabled = true)
    ∧ ((⟨"rds-a", "rds", "a", 10, 0, false⟩ : ScheduledJob) ∉
        (tick [⟨"ec2-a", "ec2", "a", 10, 0, true⟩, ⟨"rds-a", "rds", "a", 10, 0, false⟩]
          [] 5 8).1)
    ∧ ((tick [⟨"ec2-a", "ec2", "a", 10, 0, true⟩, ⟨"ec2-b", "ec2", "b", 10, 0, true⟩] [] 5 8).1
        = dueJobs [⟨"ec2-a", "ec2", "a", 10, 0, true⟩, ⟨"ec2-b", "ec2", "b", 10, 0, true⟩] [] 5)
    ∧ ((tick [⟨"ec2-a", "ec2", "a", 10, 0, true⟩, ⟨"ec2-b", "ec2", "b", 10, 0, true⟩] [] 5 1).1
        ++ (tick [⟨"ec2-a", "ec2", "a", 10, 0, true⟩, ⟨"ec2-b", "ec2", "b", 10, 0, true⟩] [] 5 1).2
        = dueJobs [⟨"ec2-a", "ec2", "a", 10, 0, true⟩, ⟨"ec2-b", "ec2", "b", 10, 0, true⟩] [] 5)
    ∧ ((⟨"ec2-b", "ec2", "b", 10, 0, true⟩ : ScheduledJob) ∈
        dueJobs [⟨"ec2-a", "ec2", "a", 10, 0, true⟩, ⟨"ec2-b", "ec2", "b", 10, 0, true⟩] [] 7) := by
  obtain ⟨h1, h2, h3, h4, h5⟩ := tick_dispatch_spec
  refine ⟨?_, ?_, ?_, ?_, ?_⟩
  · intro hmem
    exact (h1 _ _ _ _ _ hmem).2.1
  · exact h2 [⟨"ec2-a", "ec2", "a", 10, 0, true⟩, ⟨"rds-a", "rds", "a", 10, 0, false⟩]
      [] 5 8 ⟨"rds-a", "rds", "a", 10, 0, false⟩ rfl
  · exact h3 [⟨"ec2-a", "ec2", "a", 10, 0, true⟩, ⟨"ec2-b", "ec2", "b", 10, 0, true⟩]
      [] 5 8 (by decide)
  · exact h4 [⟨"ec2-a", "ec2", "a", 10, 0, true⟩, ⟨"ec2-b", "ec2", "b", 10, 0, true⟩] [] 5 1
  · exact h5 [⟨"ec2-a", "ec2", "a", 10, 0, true⟩, ⟨"ec2-b", "ec2", "b", 10, 0, true⟩]
      [] 5 1 ⟨"ec2-b", "ec2", "b", 10, 0, true⟩ 7 [] (by decide) (by decide) rfl

/-! ## Collector registry (`CollectorRegistry.Register`,
src/internal/collectors) -/

/-- What `Register` observes of a collector: its name and description (the
behaviour behind the interface is irrelevant to registration). -/
structure CollectorHandle where
  cname : String
  cdescription : String
deriving DecidableEq, Repr

/-- Registry map lookup (Go `r.collectors[name]`). -/
def regLookup (r : List (String × CollectorHandle)) (k : String) : Option CollectorHandle :=
  (r.find? (fun p => p.1 = k)).map Prod.snd

/-- `CollectorRegistry.Register`: nil collector, empty name, and duplicate
name are rejected; otherwise the collector is added under its name.  The
result pairs the returned error with the registry map after the call (a Go
nil interface is `none`). -/
def registerCollector (r : List (String × CollectorHandle)) (c : Option CollectorHandle) :
    Except String Unit × List (String × CollectorHandle) :=
  match c with
  | none => (Except.error "collector cannot be nil", r)
  | some col =>
    if col.cname = "" then (Except.error "collector name cannot be empty", r)
    else if (regLookup r col.cname).isSome then
      (Except.error ("collector " ++ col.cname ++ " already registered"), r)
    else (Except.ok (), r ++ [(col.cname, col)])

lemma regLookup_append_single (r : List (String × CollectorHandle))
    (k0 : String) (v0 : CollectorHandle) (k : String) :
    regLookup (r ++ [(k0, v0)]) k
      = match regLookup r k with
        | some v => some v
        | none => if k0 = k then some v0 else none := by
  induction r with
  | nil => by_cases h : k0 = k <;> simp [regLookup, List.find?, h]
  | cons p rest ih =>
    obtain ⟨k1, v1⟩ := p
    by_cases h : k1 = k
    · simp [regLookup, List.find?, h]
    · simp only [List.cons_append, regLookup, List.find?] at ih ⊢
      simp only [show (decide (k1 = k)) = false from by simp [h]]
      exact ih

/-- C10: `Register` returns an error exactly when the collector is nil,
its name is empty, or a collector with that name is already registered,
and in each error case the registry map is unchanged; otherwise the
collector is added under its name and every other registration is
untouched. -/
theorem registerCollector_spec :
    (∀ r : List (String × CollectorHandle),
      registerCollector r none = (Except.error "collector cannot be nil", r))
    ∧ (∀ (r : List (String × CollectorHandle)) (col : CollectorHandle),
        col.cname = "" →
        registerCollector r (some col) = (Except.error "collector name cannot be empty", r))
    ∧ (∀ (r : List (String × CollectorHandle)) (col : CollectorHandle),
        col.cname ≠ "" → regLookup r col.cname ≠ none →
        registerCollector r (some col)
          = (Except.error ("collector " ++ col.cname ++ " already registered"), r))
    ∧ (∀ (r : List (String × CollectorHandle)) (col : CollectorHandle),
        col.cname ≠ "" → regLookup r col.cname = none →
        (registerCollector r (some col)).1 = Except.ok ()
        ∧ regLookup (registerCollector r (some col)).2 col.cname = some col
        ∧ ∀ k, k ≠ col.cname →
            regLookup (registerCollector r (some col)).2 k = regLookup r k) := by
  refine ⟨fun r => rfl, ?_, ?_, ?_⟩
  · intro r col hname
    simp [registerCollector, hname]
  · intro r col hname hdup
    have hsome : (regLookup r col.cname).isSome = true := by
      cases hcase : regLookup r col.cname with
      | none => exact absurd hcase hdup
      | some v => rfl
    simp [registerCollector, hname, hsome]
  · intro r col hname hnone
    have hsome : (regLookup r col.cname).isSome = false := by
      rw [hnone]; rfl
    refine ⟨by simp [registerCollector, hname, hsome], ?_, ?_⟩
    · simp only [registerCollector, hname, hsome, Bool.false_eq_true, if_false, if_neg]
      rw [regLookup_append_single, hnone]
      simp
    · intro k hk
      simp only [registerCollector, hname, hsome, Bool.false_eq_true, if_false, if_neg]
      rw [regLookup_append_single]
      cases hcase : regLookup r k with
      | some v => rfl
      | none =>
        exact if_neg (fun h : col.cname = k => hk h.symm)

/-- Witness for C10 at concrete inputs: registering nil, an empty-named
collector, a duplicate of `"ec2"`, and a fresh `"rds"` collector against
the registry `{ec2}`. -/
theorem registerCollector_spec_witness :
    (registerCollector [("ec2", ⟨"ec2", "EC2 collector"⟩)] none
      = (Except.error "collector cannot be nil", [("ec2", ⟨"ec2", "EC2 collector"⟩)]))
    ∧ (registerCollector [("ec2", ⟨"ec2", "EC2 collector"⟩)] (some ⟨"", "anon"⟩)
      = (Except.error "collector name cannot be empty", [("ec2", ⟨"ec2", "EC2 collector"⟩)]))
    ∧ (registerCollector [("ec2", ⟨"ec2", "EC2 collector"⟩)] (some ⟨"ec2", "dup"⟩)
      = (Except.error "collector ec2 already registered", [("ec2", ⟨"ec2", "EC2 collector"⟩)]))
    ∧ ((registerCollector [("ec2", ⟨"ec2", "EC2 collector"⟩)] (some ⟨"rds", "RDS collector"⟩)).1
        = Except.ok ()
      ∧ regLookup (registerCollector [("ec2", ⟨"ec2", "EC2 collector"⟩)]
          (some ⟨"rds", "RDS collector"⟩)).2 "rds" = some ⟨"rds", "RDS collector"⟩
      ∧ regLookup (registerCollector [("ec2", ⟨"ec2", "EC2 collector"⟩)]
          (some ⟨"rds", "RDS collector"⟩)).2 "ec2"
          = regLookup [("ec2", ⟨"ec2", "EC2 collector"⟩)] "ec2") := by
  obtain ⟨h1, h2, h3, h4⟩ := registerCollector_spec
  obtain ⟨h4a, h4b, h4c⟩ := h4 [("ec2", ⟨"ec2", "EC2 collector"⟩)] ⟨"rds", "RDS collector"⟩
    (by decide) (by decide)
  exact ⟨h1 _, h2 _ ⟨"", "anon"⟩ rfl, h3 _ ⟨"ec2", "dup"⟩ (by decide) (by decide),
    h4a, h4b, h4c "ec2" (by decide)⟩

end AwsMon
